import Mathlib

/-!
Shallow embedding of the gkeys-rs macro-recording and LED-feedback
subsystem (src/events.rs, src/recording.rs, src/led.rs, src/main.rs),
with theorems checking the natural-language specification against it.

Bytes are modelled as `Nat` values in `[0, 256)`; fixed 20-byte HID
reports are `List Nat` of length 20. Rust's `saturating_sub` on
unsigned integers coincides with `Nat` subtraction.
-/

namespace GkeysRs

/-- Events from the keyboard (src/events.rs, `enum Event`). -/
inductive Event : Type
  | GKey (n : Nat)
  | GKeyRelease
  | MKey (n : Nat)
  | MKeyRelease
  | MRKey
  | MRKeyRelease
deriving DecidableEq, Repr

/-- Slice indexing `data[i]` as used in `parse_report` (safe there
after the length check; out-of-range defaults to 0, which is never
exercised under the length hypothesis). -/
def byte (data : List Nat) (i : Nat) : Nat :=
  data.getD i 0

/-- `parse_report` (src/events.rs lines 46-92): parse a HID report into an
event. Rust's `match` on the family and mask bytes is rendered as an
if-chain over decidable equalities. -/
def parse_report (data : List Nat) : Option Event :=
  if data.length < 5 then
    none
  else if byte data 0 ≠ 0x11 ∨ byte data 1 ≠ 0xff then
    none
  else if byte data 2 = 0x0a then
    -- G-keys
    if byte data 4 = 0x01 then some (Event.GKey 1)
    else if byte data 4 = 0x02 then some (Event.GKey 2)
    else if byte data 4 = 0x04 then some (Event.GKey 3)
    else if byte data 4 = 0x08 then some (Event.GKey 4)
    else if byte data 4 = 0x10 then some (Event.GKey 5)
    else if byte data 4 = 0x00 then some Event.GKeyRelease
    else none
  else if byte data 2 = 0x0b then
    -- M-keys (profile select)
    if byte data 4 = 0x01 then some (Event.MKey 1)
    else if byte data 4 = 0x02 then some (Event.MKey 2)
    else if byte data 4 = 0x04 then some (Event.MKey 3)
    else if byte data 4 = 0x00 then some Event.MKeyRelease
    else none
  else if byte data 2 = 0x0c then
    -- MR key (record)
    if byte data 4 = 0x01 then some Event.MRKey
    else if byte data 4 = 0x00 then some Event.MRKeyRelease
    else none
  else
    none

/-- `led_command` (src/events.rs lines 98-106): profile-indicator report
`[0x11, 0xff, 0x0b, 0x1c, 1 << (profile.saturating_sub(1)), 0, ...]`.
`Nat` subtraction is saturating, matching `u8::saturating_sub`. -/
def led_command (profile : Nat) : List Nat :=
  [0x11, 0xff, 0x0b, 0x1c, (1 <<< (profile - 1)) % 256] ++ List.replicate 15 0

/-- `mr_led_command` (src/events.rs lines 112-120): MR-LED report
`[0x11, 0xff, 0x0c, 0x0c, on, 0, ...]`; the Rust parameter `on` is
rendered `lit` because `on` is reserved in Lean. -/
def mr_led_command (lit : Bool) : List Nat :=
  [0x11, 0xff, 0x0c, 0x0c, if lit then 0x01 else 0x00] ++ List.replicate 15 0

/-- `gkey_led_command` (src/events.rs lines 126-139): single G-key RGB
report; the key address is `gkey + 0xb3` (`saturating_add` cannot
overflow `Nat`, and we keep the byte range with `% 256`). -/
def gkey_led_command (gkey r g b : Nat) : List Nat :=
  [0x11, 0xff, 0x10, 0x6c, r, g, b, (gkey + 0xb3) % 256, 0xff] ++ List.replicate 11 0

/-- `all_gkeys_led_command` (src/events.rs lines 143-160): all five G-key
addresses in one RGB report. -/
def all_gkeys_led_command (r g b : Nat) : List Nat :=
  [0x11, 0xff, 0x10, 0x6c, r, g, b, 0xb4, 0xb5, 0xb6, 0xb7, 0xb8, 0xff] ++
    List.replicate 7 0

/-- `led_commit_command` (src/events.rs lines 165-172): commit report. -/
def led_commit_command : List Nat :=
  [0x11, 0xff, 0x10, 0x7f] ++ List.replicate 16 0

/-- `direct_mode_init_commands` (src/events.rs lines 177-205): the four
mode-initialization reports sent before a full-surface color fill. -/
def direct_mode_init_commands : List (List Nat) :=
  [ [0x11, 0xff, 0x08, 0x3e] ++ List.replicate 16 0
  , [0x11, 0xff, 0x08, 0x1e] ++ List.replicate 16 0
  , [0x11, 0xff, 0x0f, 0x1e] ++ List.replicate 12 0 ++ [0x01] ++ List.replicate 3 0
  , [0x11, 0xff, 0x0f, 0x1e, 0x01] ++ List.replicate 15 0 ]

/-- `G815_ALL_KEYS` (src/events.rs lines 213-242): protocol addresses of
every key, for per-key LED control. -/
def G815_ALL_KEYS : List Nat :=
  [ 0x01, 0x02, 0x03, 0x04, 0x05, 0x06, 0x07, 0x08, 0x09, 0x0A, 0x0B,
    0x0C, 0x0D, 0x0E, 0x0F, 0x10, 0x11, 0x12, 0x13, 0x14, 0x15, 0x16,
    0x17, 0x18, 0x19, 0x1A,
    0x1B, 0x1C, 0x1D, 0x1E, 0x1F, 0x20, 0x21, 0x22, 0x23, 0x24,
    0x25, 0x26, 0x27, 0x28, 0x29, 0x2A, 0x2B, 0x2C,
    0x2D, 0x2E, 0x2F, 0x30, 0x31, 0x32, 0x33, 0x34, 0x35,
    0x36, 0x37, 0x38, 0x39, 0x3A, 0x3B, 0x3C, 0x3D, 0x3E, 0x3F, 0x40, 0x41, 0x42,
    0x43, 0x44, 0x45, 0x46, 0x47, 0x48, 0x49, 0x4A, 0x4B, 0x4C, 0x4D, 0x4E, 0x4F,
    0x50, 0x51, 0x52, 0x53, 0x54, 0x55, 0x56, 0x57, 0x58, 0x59, 0x5A, 0x5B, 0x5C,
    0x5D, 0x5E, 0x5F, 0x60,
    0x61, 0x62,
    0x68, 0x69, 0x6A, 0x6B, 0x6C, 0x6D, 0x6E, 0x6F,
    0x98, 0x99, 0x9A, 0x9B,
    0x96,
    0xD2,
    0xB4, 0xB5, 0xB6, 0xB7, 0xB8 ]

/-- `full_keyboard_color_commands` (src/events.rs lines 247-263): one
per-key color frame (`0x1f`) report per key address. -/
def full_keyboard_color_commands (r g b : Nat) : List (List Nat) :=
  G815_ALL_KEYS.map fun key =>
    [0x11, 0xff, 0x10, 0x1f, key, r, g, b] ++ List.replicate 12 0

/-- `RecordingState` (src/recording.rs lines 16-30). The `Recording`
variant's runtime handles (`stop_flag`, `receiver`, `_capture_thread`)
are embedded by their observable content: `queue` is the ordered list of
chord strings currently pending in the mpsc receiver (what a sequence of
`try_recv` calls would drain, in order). -/
inductive RecordingState : Type
  | Idle
  | AwaitingGKey (profile : String)
  | Recording (profile : String) (gkey : Nat) (captured_keys : List String)
      (queue : List String)
deriving DecidableEq, Repr

/-- `RecordingAction` (src/recording.rs lines 34-53). -/
inductive RecordingAction : Type
  | None
  | EnterAwaiting
  | StartedRecording (gkey : Nat)
  | SaveMacro (profile : String) (gkey : Nat) (sequence : String)
  | CancelledEmpty
  | CancelledNoGKey
  | Error (msg : String)
deriving DecidableEq, Repr

/-- `Recorder::on_mr_press` (src/recording.rs lines 78-135): the pure
state-and-action part. In the `Recording` arm the source drains the
receiver into `captured_keys` (`captured_keys ++ queue` here), joins
with `", "`, and returns `CancelledEmpty` when nothing was captured,
else `SaveMacro`. -/
def on_mr_press (current_profile : String) :
    RecordingState → RecordingState × RecordingAction
  | RecordingState.Idle =>
      (RecordingState.AwaitingGKey current_profile, RecordingAction.EnterAwaiting)
  | RecordingState.AwaitingGKey _ =>
      (RecordingState.Idle, RecordingAction.CancelledNoGKey)
  | RecordingState.Recording profile gkey captured_keys queue =>
      let drained := captured_keys ++ queue
      let sequence := String.intercalate ", " drained
      (RecordingState.Idle,
       if drained.isEmpty then RecordingAction.CancelledEmpty
       else RecordingAction.SaveMacro profile gkey sequence)

/-- Thread-management side effects that `on_mr_press` performs on its
`Recording` arm, in source order. -/
inductive MrEffect : Type
  | setStopFlag
  | drainQueue
  | joinWorker
deriving DecidableEq, Repr

/-- The side effects `Recorder::on_mr_press` performs, in order
(src/recording.rs lines 98-133): on the `Recording` arm it stores the
stop flag (line 107), then drains the receiver (lines 110-112); the
`_capture_thread : JoinHandle` field is dropped when `old_state` goes
out of scope, which detaches the thread — the source contains no call
to `JoinHandle::join`, so no `joinWorker` effect occurs. -/
def on_mr_press_effects : RecordingState → List MrEffect
  | RecordingState.Recording _ _ _ _ => [MrEffect.setStopFlag, MrEffect.drainQueue]
  | _ => []

/-- Outcome of the environment when entering recording
(src/recording.rs lines 144-167): `find_keyboard_evdev()` may return no
path (`notFound`), and `start_capture_thread` may fail with an error
rendered by its message string (`startErr`). -/
inductive SpawnOutcome : Type
  | ok
  | notFound
  | startErr (e : String)
deriving DecidableEq, Repr

/-- `Recorder::on_gkey_press` (src/recording.rs lines 138-174),
parametrized by the spawn outcome. In the `AwaitingGKey` arm: on
success the state becomes `Recording` with empty `captured_keys` (and
an empty fresh queue) and the action is `StartedRecording`; on failure
the state (already replaced by `Idle`) stays `Idle` and the action is
`Error` with the source's message. In any other state the source
restores `old_state` unchanged and returns `None`. -/
def on_gkey_press (spawn : SpawnOutcome) (gkey : Nat) :
    RecordingState → RecordingState × RecordingAction
  | RecordingState.AwaitingGKey profile =>
      match spawn with
      | SpawnOutcome.ok =>
          (RecordingState.Recording profile gkey [] [],
           RecordingAction.StartedRecording gkey)
      | SpawnOutcome.notFound =>
          (RecordingState.Idle, RecordingAction.Error "Keyboard device not found")
      | SpawnOutcome.startErr e =>
          (RecordingState.Idle,
           RecordingAction.Error ("Failed to start capture: " ++ e))
  | s => (s, RecordingAction.None)

/-- `Recorder::poll_captured_keys` (src/recording.rs lines 177-190):
while `Recording`, drain the receiver into `captured_keys` in order; in
any other state do nothing. It returns no action. -/
def poll_captured_keys : RecordingState → RecordingState
  | RecordingState.Recording profile gkey captured_keys queue =>
      RecordingState.Recording profile gkey (captured_keys ++ queue) []
  | s => s

/-- `MR_LED_DEBOUNCE_MS` (src/led.rs line 53). -/
def MR_LED_DEBOUNCE_MS : Nat := 30

/-- `LedController::is_mr_event_from_led` (src/led.rs lines 92-105),
with the shared atomic `mr_led_write_time` and the clock passed
explicitly: given the marker value and `now` (both ms since epoch), it
returns the classification and the marker value after the call. `Nat`
subtraction coincides with `u64::saturating_sub`. -/
def is_mr_event_from_led (write_time now : Nat) : Bool × Nat :=
  if write_time = 0 then
    (false, write_time)
  else if now - write_time < MR_LED_DEBOUNCE_MS then
    (true, 0)
  else
    (false, write_time)

/-- `LedCommand` (src/led.rs lines 21-44). -/
inductive LedCommand : Type
  | SetMrLed (lit : Bool)
  | SetProfileLed (profile : Nat)
  | SetAllGKeysLed (r g b : Nat)
  | SetGKeysRecording (selected_gkey : Nat)
  | StartMrFlashing
  | StopMrFlashing
  | QuickFlashMr (count : Nat)
  | TurnOffGKeys
  | SetFullKeyboardColor (r g b : Nat)
  | RestoreGKeysColor (color : Option (Nat × Nat × Nat))
  | Shutdown
deriving DecidableEq, Repr

/-- Primitive operations the LED worker performs, in order: a store of
the current wall-clock timestamp into the shared `mr_led_write_time`
marker, a `write_report` of a 20-byte report, or a `thread::sleep`. -/
inductive LedOp : Type
  | markerStore
  | write (report : List Nat)
  | sleep
deriving DecidableEq, Repr

/-- Whether a report is a record-indicator (MR LED) report: exactly the
reports produced by `mr_led_command`, with family byte `0x0c` and
sub-function byte `0x0c`. -/
def isMrWrite : LedOp → Bool
  | LedOp.write report => report.getD 2 0 == 0x0c && report.getD 3 0 == 0x0c
  | _ => false

/-- Whether an operation is a marker store. -/
def isStore : LedOp → Bool
  | LedOp.markerStore => true
  | _ => false

/-- The `for _ in 0..count` loop of the `QuickFlashMr` arm
(src/led.rs lines 262-270): each iteration stores the marker, writes MR
on, sleeps, stores the marker, writes MR off, sleeps. -/
def quick_flash_ops : Nat → List LedOp
  | 0 => []
  | n + 1 =>
      [LedOp.markerStore, LedOp.write (mr_led_command true), LedOp.sleep,
       LedOp.markerStore, LedOp.write (mr_led_command false), LedOp.sleep] ++
        quick_flash_ops n

/-- Mutable locals of `led_worker` (src/led.rs lines 201-203); the
`last_flash : Instant` is abstracted into the boolean input below. -/
structure LedWorkerState : Type where
  flashing : Bool
  flash_on : Bool
deriving DecidableEq, Repr

/-- One wake-up of the worker loop: a command arrived, or
`recv_timeout` timed out (with `elapsed_ge_interval` recording whether
`last_flash.elapsed() >= MR_FLASH_INTERVAL`). -/
inductive LedInput : Type
  | cmd (c : LedCommand)
  | timeout (elapsed_ge_interval : Bool)
deriving DecidableEq, Repr

/-- One iteration of the `led_worker` loop (src/led.rs lines 205-331):
the resulting local state and the ordered list of primitive operations
(marker stores, report writes, sleeps) the iteration performs. -/
def led_worker_step (st : LedWorkerState) : LedInput → LedWorkerState × List LedOp
  | LedInput.cmd c =>
      match c with
      | LedCommand.SetMrLed lit =>
          (st, [LedOp.markerStore, LedOp.write (mr_led_command lit)])
      | LedCommand.SetProfileLed profile =>
          (st, [LedOp.write (led_command profile)])
      | LedCommand.SetAllGKeysLed r g b =>
          (st, [LedOp.write (all_gkeys_led_command r g b),
                LedOp.write led_commit_command])
      | LedCommand.SetGKeysRecording selected_gkey =>
          -- for g in 1..=5: the color is (255,0,0) for the selected key
          -- and (0,0,0) otherwise; the green and blue components are 0
          -- in both branches.
          (st, ((List.range 5).map fun i =>
                  LedOp.write (gkey_led_command (i + 1)
                    (if i + 1 = selected_gkey then 255 else 0) 0 0)) ++
               [LedOp.write led_commit_command])
      | LedCommand.StartMrFlashing =>
          ({ flashing := true, flash_on := true },
           [LedOp.markerStore, LedOp.write (mr_led_command true)])
      | LedCommand.StopMrFlashing =>
          ({ st with flashing := false },
           [LedOp.markerStore, LedOp.write (mr_led_command false)])
      | LedCommand.QuickFlashMr count =>
          ({ st with flashing := false }, quick_flash_ops count)
      | LedCommand.TurnOffGKeys =>
          (st, [LedOp.write (all_gkeys_led_command 0 0 0),
                LedOp.write led_commit_command])
      | LedCommand.SetFullKeyboardColor r g b =>
          (st, (direct_mode_init_commands.map LedOp.write) ++
               ((full_keyboard_color_commands r g b).map LedOp.write) ++
               [LedOp.write led_commit_command])
      | LedCommand.RestoreGKeysColor color =>
          (st, [LedOp.write
                  (match color with
                   | some (r, g, b) => all_gkeys_led_command r g b
                   | none => all_gkeys_led_command 0 0 0),
                LedOp.write led_commit_command])
      | LedCommand.Shutdown =>
          ({ st with flashing := false },
           [LedOp.markerStore, LedOp.write (mr_led_command false),
            LedOp.write (all_gkeys_led_command 0 0 0),
            LedOp.write led_commit_command])
  | LedInput.timeout elapsed_ge_interval =>
      if st.flashing && elapsed_ge_interval then
        ({ st with flash_on := !st.flash_on },
         [LedOp.markerStore, LedOp.write (mr_led_command (!st.flash_on))])
      else
        (st, [])

/-- Auxiliary scan for `storeBeforeMrWrite`: `prevStore` records
whether the immediately preceding operation was a marker store. An MR
LED write is accepted only when `prevStore` holds. -/
def storeBeforeMrWriteAux (prevStore : Bool) : List LedOp → Bool
  | [] => true
  | op :: rest =>
      if isMrWrite op then prevStore && storeBeforeMrWriteAux false rest
      else storeBeforeMrWriteAux (isStore op) rest

/-- Decides "every MR LED write in the list is immediately preceded by
a marker store". -/
def storeBeforeMrWrite (l : List LedOp) : Bool :=
  storeBeforeMrWriteAux false l

/-- Side effects of the orchestrator's normal event dispatch visible in
the `MKey` arm: an LED-controller command and a desktop notification. -/
inductive MainEffect : Type
  | setProfileLed (n : Nat)
  | notifySend (body : String)
deriving DecidableEq, Repr

/-- The `Event::MKey(n)` arm of `handle_event` (src/main.rs lines
186-205): computes `new_profile = "MEMORY_{n}"`; only when it differs
from `current_profile` does it update the remembered profile, send
`set_profile_led(n)`, and (when `config.notify.0`) spawn a
notification. Returns the new remembered profile and the effect list
in order. -/
def handle_event_mkey (n : Nat) (current_profile : String) (notify : Bool) :
    String × List MainEffect :=
  let new_profile := "MEMORY_" ++ toString n
  if current_profile ≠ new_profile then
    (new_profile,
     [MainEffect.setProfileLed n] ++
       (if notify then [MainEffect.notifySend ("Profile M" ++ toString n)] else []))
  else
    (current_profile, [])

end GkeysRs

namespace GkeysRs

example : parse_report [0x11, 0xff, 0x0a, 0x00, 0x01, 0, 0, 0, 0, 0,
    0, 0, 0, 0, 0, 0, 0, 0, 0, 0] = some (Event.GKey 1) := by decide

example : parse_report [0x11, 0xff, 0x0c, 0x00, 0x01, 0, 0, 0, 0, 0,
    0, 0, 0, 0, 0, 0, 0, 0, 0, 0] = some Event.MRKey := by decide

example : (led_command 2).getD 4 0 = 2 := by decide

example : led_command 0 = led_command 1 := by decide

example :
    on_mr_press "MEMORY_1"
      (RecordingState.Recording "MEMORY_1" 3 ["ctrl+shift+t"] ["enter"]) =
    (RecordingState.Idle,
     RecordingAction.SaveMacro "MEMORY_1" 3 "ctrl+shift+t, enter") := by decide

example :
    storeBeforeMrWrite
      (led_worker_step ⟨false, false⟩ (LedInput.cmd (LedCommand.QuickFlashMr 2))).2 =
      true := by decide

/-- A marker store immediately followed by an MR LED report write is a
matched pair for the store-before-write scan. -/
lemma aux_store_mrcmd (p b : Bool) (l : List LedOp) :
    storeBeforeMrWriteAux p
        (LedOp.markerStore :: LedOp.write (mr_led_command b) :: l) =
      storeBeforeMrWriteAux false l := by
  cases b <;> simp [storeBeforeMrWriteAux, isMrWrite, isStore, mr_led_command]

/-- A sleep passes through the store-before-write scan, resetting the
previous-store flag. -/
lemma aux_sleep (p : Bool) (l : List LedOp) :
    storeBeforeMrWriteAux p (LedOp.sleep :: l) = storeBeforeMrWriteAux false l := by
  simp [storeBeforeMrWriteAux, isMrWrite, isStore]

/-- A prefix of operations that are neither MR LED writes nor marker
stores cannot invalidate the store-before-write scan. -/
lemma aux_append_passthrough (l1 l2 : List LedOp) (p : Bool)
    (h : ∀ op ∈ l1, isMrWrite op = false ∧ isStore op = false)
    (h2 : ∀ q : Bool, storeBeforeMrWriteAux q l2 = true) :
    storeBeforeMrWriteAux p (l1 ++ l2) = true := by
  induction l1 generalizing p with
  | nil => exact h2 p
  | cons op l1 ih =>
      rw [List.cons_append]
      rw [show storeBeforeMrWriteAux p (op :: (l1 ++ l2)) =
            storeBeforeMrWriteAux (isStore op) (l1 ++ l2) by
          simp [storeBeforeMrWriteAux, (h op (by simp)).1]]
      exact ih _ fun o ho => h o (by simp [ho])

/-- Every iteration of the quick-flash loop stores the marker right
before each of its two MR LED writes. -/
lemma aux_quick_flash_ops (n : Nat) (p : Bool) :
    storeBeforeMrWriteAux p (quick_flash_ops n) = true := by
  induction n generalizing p with
  | zero => rfl
  | succ n ih =>
      simp only [quick_flash_ops, List.cons_append, List.nil_append]
      rw [aux_store_mrcmd, aux_sleep, aux_store_mrcmd, aux_sleep]
      exact ih _

/-- C1: every (state, event) pair listed in the spec's transition table
is realized by `on_mr_press` / `on_gkey_press` (and the queue-drain row
by `poll_captured_keys`) with the listed next state and action, and
every unlisted (state, event) combination leaves the state unchanged
with action `None`. -/
theorem recorder_transition_table :
    (∀ p, on_mr_press p RecordingState.Idle =
        (RecordingState.AwaitingGKey p, RecordingAction.EnterAwaiting)) ∧
    (∀ q p, on_mr_press q (RecordingState.AwaitingGKey p) =
        (RecordingState.Idle, RecordingAction.CancelledNoGKey)) ∧
    (∀ q p g cap queue,
        on_mr_press q (RecordingState.Recording p g cap queue) =
          (RecordingState.Idle,
           if (cap ++ queue).isEmpty then RecordingAction.CancelledEmpty
           else RecordingAction.SaveMacro p g
             (String.intercalate ", " (cap ++ queue)))) ∧
    (∀ g p, on_gkey_press SpawnOutcome.ok g (RecordingState.AwaitingGKey p) =
        (RecordingState.Recording p g [] [],
         RecordingAction.StartedRecording g)) ∧
    (∀ g p, on_gkey_press SpawnOutcome.notFound g (RecordingState.AwaitingGKey p) =
        (RecordingState.Idle,
         RecordingAction.Error "Keyboard device not found")) ∧
    (∀ e g p,
        on_gkey_press (SpawnOutcome.startErr e) g (RecordingState.AwaitingGKey p) =
          (RecordingState.Idle,
           RecordingAction.Error ("Failed to start capture: " ++ e))) ∧
    (∀ p g cap queue, poll_captured_keys (RecordingState.Recording p g cap queue) =
        RecordingState.Recording p g (cap ++ queue) []) ∧
    (∀ sp g, on_gkey_press sp g RecordingState.Idle =
        (RecordingState.Idle, RecordingAction.None)) ∧
    (∀ sp g p gg cap queue,
        on_gkey_press sp g (RecordingState.Recording p gg cap queue) =
          (RecordingState.Recording p gg cap queue, RecordingAction.None)) ∧
    (poll_captured_keys RecordingState.Idle = RecordingState.Idle) ∧
    (∀ p, poll_captured_keys (RecordingState.AwaitingGKey p) =
        RecordingState.AwaitingGKey p) :=
  ⟨fun _ => rfl, fun _ _ => rfl, fun _ _ _ _ _ => rfl, fun _ _ => rfl,
   fun _ _ => rfl, fun _ _ _ => rfl, fun _ _ _ _ => rfl, fun _ _ => rfl,
   fun _ _ _ _ _ _ => rfl, rfl, fun _ => rfl⟩

/-- C3: `on_mr_press` in state `Recording` drains the still-queued
chords in order onto the captured list and moves to `Idle`; if the
resulting list is non-empty the action is `SaveMacro` with the chords
joined by `", "`, otherwise `CancelledEmpty`. -/
theorem on_mr_press_recording_saves_drained (q p : String) (g : Nat)
    (cap queue : List String) :
    (on_mr_press q (RecordingState.Recording p g cap queue)).1 =
      RecordingState.Idle ∧
    (cap ++ queue ≠ [] →
      (on_mr_press q (RecordingState.Recording p g cap queue)).2 =
        RecordingAction.SaveMacro p g (String.intercalate ", " (cap ++ queue))) ∧
    (cap ++ queue = [] →
      (on_mr_press q (RecordingState.Recording p g cap queue)).2 =
        RecordingAction.CancelledEmpty) := by
  refine ⟨rfl, fun h => ?_, fun h => ?_⟩
  · simp [on_mr_press, h]
  · simp [on_mr_press, h]

/-- Witness for C3: Scenario C of the spec, with chords
`"ctrl+shift+t"` then `"enter"` captured on G3, plus Scenario D with
nothing captured. -/
theorem on_mr_press_recording_saves_drained_witness :
    (on_mr_press "MEMORY_1"
        (RecordingState.Recording "MEMORY_1" 3 ["ctrl+shift+t"] ["enter"])).2 =
      RecordingAction.SaveMacro "MEMORY_1" 3 "ctrl+shift+t, enter" ∧
    (on_mr_press "MEMORY_1" (RecordingState.Recording "MEMORY_1" 3 [] [])).2 =
      RecordingAction.CancelledEmpty :=
  ⟨((on_mr_press_recording_saves_drained "MEMORY_1" "MEMORY_1" 3
        ["ctrl+shift+t"] ["enter"]).2.1 (by decide)).trans (by decide),
   (on_mr_press_recording_saves_drained "MEMORY_1" "MEMORY_1" 3 [] []).2.2 rfl⟩

/-- C5 counterexample: leaving `Recording` does not join the capture
worker thread — at a concrete `Recording` state, `joinWorker` is not
among the side effects `on_mr_press` performs (the `JoinHandle` held in
`_capture_thread` is merely dropped, detaching the thread). -/
theorem on_mr_press_join_claim_counterexample :
    (on_mr_press_effects
        (RecordingState.Recording "MEMORY_1" 3 ["a"] [])).contains
      MrEffect.joinWorker = false := by
  decide

/-- C5 (amended): every transition out of `Recording` first signals the
cancellation flag and then drains the queued chords, in that order,
before the `SaveMacro`/`CancelledEmpty` action is produced, and the
state becomes `Idle`; but the capture worker is never joined: no state
produces a `joinWorker` effect. -/
theorem on_mr_press_signals_and_drains_without_join (q p : String) (g : Nat)
    (cap queue : List String) :
    on_mr_press_effects (RecordingState.Recording p g cap queue) =
      [MrEffect.setStopFlag, MrEffect.drainQueue] ∧
    (on_mr_press q (RecordingState.Recording p g cap queue)).1 =
      RecordingState.Idle ∧
    (∀ s, (on_mr_press_effects s).contains MrEffect.joinWorker = false) := by
  refine ⟨rfl, rfl, fun s => ?_⟩
  cases s <;> rfl

/-- C8: in `AwaitingGKey`, a failed capture-worker start (device not
found, or capture-thread start error) yields `Error` and state `Idle`;
a successful start yields `StartedRecording` and state `Recording` with
an empty captured list. -/
theorem on_gkey_press_spawn_failure_handling (g : Nat) (p e : String) :
    on_gkey_press SpawnOutcome.notFound g (RecordingState.AwaitingGKey p) =
      (RecordingState.Idle, RecordingAction.Error "Keyboard device not found") ∧
    on_gkey_press (SpawnOutcome.startErr e) g (RecordingState.AwaitingGKey p) =
      (RecordingState.Idle,
       RecordingAction.Error ("Failed to start capture: " ++ e)) ∧
    on_gkey_press SpawnOutcome.ok g (RecordingState.AwaitingGKey p) =
      (RecordingState.Recording p g [] [], RecordingAction.StartedRecording g) :=
  ⟨rfl, rfl, rfl⟩

/-- C10: `led_command` always yields a 20-byte report; byte 4 is
`1 << (profile - 1)` for profiles 1, 2, 3 (bits 0, 1, 2); and the
saturating subtraction makes `led_command 0` identical to
`led_command 1`. -/
theorem led_command_profile_bitmask :
    (∀ profile, (led_command profile).length = 20) ∧
    (led_command 1).getD 4 0 = 1 ∧
    (led_command 2).getD 4 0 = 2 ∧
    (led_command 3).getD 4 0 = 4 ∧
    led_command 0 = led_command 1 :=
  ⟨fun _ => rfl, by decide, by decide, by decide, by decide⟩

/-- C2: `is_mr_event_from_led` is idempotent-once. With a nonzero
marker and within the 30 ms window it returns true and clears the
marker, so an immediately repeated call (on the cleared marker) returns
false; with a zero marker it returns false; past the window it returns
false and leaves the marker unchanged. -/
theorem is_mr_event_from_led_idempotent_once (w now now2 : Nat) :
    (is_mr_event_from_led 0 now = (false, 0)) ∧
    (w ≠ 0 → now - w < MR_LED_DEBOUNCE_MS →
      is_mr_event_from_led w now = (true, 0) ∧
      is_mr_event_from_led (is_mr_event_from_led w now).2 now2 = (false, 0)) ∧
    (w ≠ 0 → MR_LED_DEBOUNCE_MS ≤ now - w →
      is_mr_event_from_led w now = (false, w)) := by
  refine ⟨rfl, fun hw hin => ?_, fun hw hout => ?_⟩
  · constructor
    · simp [is_mr_event_from_led, hw, hin]
    · simp [is_mr_event_from_led, hw, hin]
  · simp [is_mr_event_from_led, hw, Nat.not_lt.mpr hout]

/-- Witness for C2: a write at t = 1000 ms; a call at 1010 ms (within
the window) classifies as self and clears; the repeat call at 1011 ms
returns false; a call at 1040 ms on a fresh marker is past the window
and leaves the marker alone. -/
theorem is_mr_event_from_led_idempotent_once_witness :
    is_mr_event_from_led 1000 1010 = (true, 0) ∧
    is_mr_event_from_led (is_mr_event_from_led 1000 1010).2 1011 = (false, 0) ∧
    is_mr_event_from_led 1000 1040 = (false, 1000) :=
  ⟨((is_mr_event_from_led_idempotent_once 1000 1010 1011).2.1
      (by decide) (by decide)).1,
   ((is_mr_event_from_led_idempotent_once 1000 1010 1011).2.1
      (by decide) (by decide)).2,
   (is_mr_event_from_led_idempotent_once 1000 1040 0).2.2
      (by decide) (by decide)⟩

/-- C9: dispatching a profile-key press `MKey(n)` whose target profile
equals the remembered one changes nothing — no profile update, no LED
command, no notification; when it differs, the remembered profile is
updated, the profile LED is set, and a notification is spawned exactly
when configured. -/
theorem handle_event_mkey_no_echo (n : Nat) (current_profile : String)
    (notify : Bool) :
    (current_profile = "MEMORY_" ++ toString n →
      handle_event_mkey n current_profile notify = (current_profile, [])) ∧
    (current_profile ≠ "MEMORY_" ++ toString n →
      handle_event_mkey n current_profile notify =
        ("MEMORY_" ++ toString n,
         MainEffect.setProfileLed n ::
           (if notify then [MainEffect.notifySend ("Profile M" ++ toString n)]
            else []))) := by
  refine ⟨fun h => ?_, fun h => ?_⟩
  · simp [handle_event_mkey, h]
  · simp [handle_event_mkey, h]

/-- Witness for C9: pressing M1 while the remembered profile is already
`MEMORY_1` is a no-op; pressing M2 switches, sets the LED, and (with
notifications enabled) notifies. -/
theorem handle_event_mkey_no_echo_witness :
    handle_event_mkey 1 "MEMORY_1" true = ("MEMORY_1", []) ∧
    handle_event_mkey 2 "MEMORY_1" true =
      ("MEMORY_2", [MainEffect.setProfileLed 2,
                    MainEffect.notifySend "Profile M2"]) :=
  ⟨(handle_event_mkey_no_echo 1 "MEMORY_1" true).1 (by decide),
   ((handle_event_mkey_no_echo 2 "MEMORY_1" true).2 (by decide)).trans
     (by decide)⟩

/-- C4: on a 20-byte report with the valid prefix, the key-group family
(byte 2 = `0x0a`) maps the single-bit masks 1, 2, 4, 8, 16 at byte 4 to
`GKey` 1..5, mask 0 to the release, and any other mask to no event; the
profile-key family (`0x0b`) maps masks 1, 2, 4 to `MKey` 1..3, mask 0
to the release, and any other mask to no event. -/
theorem parse_report_family_mask_table (data : List Nat)
    (hlen : data.length = 20) (h0 : byte data 0 = 0x11)
    (h1 : byte data 1 = 0xff) :
    (byte data 2 = 0x0a →
      (byte data 4 = 0x01 → parse_report data = some (Event.GKey 1)) ∧
      (byte data 4 = 0x02 → parse_report data = some (Event.GKey 2)) ∧
      (byte data 4 = 0x04 → parse_report data = some (Event.GKey 3)) ∧
      (byte data 4 = 0x08 → parse_report data = some (Event.GKey 4)) ∧
      (byte data 4 = 0x10 → parse_report data = some (Event.GKey 5)) ∧
      (byte data 4 = 0x00 → parse_report data = some Event.GKeyRelease) ∧
      (byte data 4 ∉ ([0x00, 0x01, 0x02, 0x04, 0x08, 0x10] : List Nat) →
        parse_report data = none)) ∧
    (byte data 2 = 0x0b →
      (byte data 4 = 0x01 → parse_report data = some (Event.MKey 1)) ∧
      (byte data 4 = 0x02 → parse_report data = some (Event.MKey 2)) ∧
      (byte data 4 = 0x04 → parse_report data = some (Event.MKey 3)) ∧
      (byte data 4 = 0x00 → parse_report data = some Event.MKeyRelease) ∧
      (byte data 4 ∉ ([0x00, 0x01, 0x02, 0x04] : List Nat) →
        parse_report data = none)) := by
  have hshort : ¬ data.length < 5 := by omega
  constructor
  · intro hf
    refine ⟨fun hm => ?_, fun hm => ?_, fun hm => ?_, fun hm => ?_,
      fun hm => ?_, fun hm => ?_, fun hm => ?_⟩
    · simp [parse_report, hshort, h0, h1, hf, hm]
    · simp [parse_report, hshort, h0, h1, hf, hm]
    · simp [parse_report, hshort, h0, h1, hf, hm]
    · simp [parse_report, hshort, h0, h1, hf, hm]
    · simp [parse_report, hshort, h0, h1, hf, hm]
    · simp [parse_report, hshort, h0, h1, hf, hm]
    · simp only [List.mem_cons, List.not_mem_nil, or_false] at hm
      push_neg at hm
      obtain ⟨hm0, hm1, hm2, hm4, hm8, hm16⟩ := hm
      simp [parse_report, hshort, h0, h1, hf, hm0, hm1, hm2, hm4, hm8, hm16]
  · intro hf
    refine ⟨fun hm => ?_, fun hm => ?_, fun hm => ?_, fun hm => ?_,
      fun hm => ?_⟩
    · simp [parse_report, hshort, h0, h1, hf, hm]
    · simp [parse_report, hshort, h0, h1, hf, hm]
    · simp [parse_report, hshort, h0, h1, hf, hm]
    · simp [parse_report, hshort, h0, h1, hf, hm]
    · simp only [List.mem_cons, List.not_mem_nil, or_false] at hm
      push_neg at hm
      obtain ⟨hm0, hm1, hm2, hm4⟩ := hm
      simp [parse_report, hshort, h0, h1, hf, hm0, hm1, hm2, hm4]

/-- Witness for C4: the report `[0x11, 0xff, 0x0a, 0x00, 0x10, 0...]`
decodes to `GKey 5`, and mask `0x03` (two bits) on the key-group family
decodes to no event. -/
theorem parse_report_family_mask_table_witness :
    parse_report [0x11, 0xff, 0x0a, 0x00, 0x10, 0, 0, 0, 0, 0,
        0, 0, 0, 0, 0, 0, 0, 0, 0, 0] = some (Event.GKey 5) ∧
    parse_report [0x11, 0xff, 0x0a, 0x00, 0x03, 0, 0, 0, 0, 0,
        0, 0, 0, 0, 0, 0, 0, 0, 0, 0] = none :=
  ⟨(((parse_report_family_mask_table
        [0x11, 0xff, 0x0a, 0x00, 0x10, 0, 0, 0, 0, 0,
         0, 0, 0, 0, 0, 0, 0, 0, 0, 0]
        (by decide) (by decide) (by decide)).1 (by decide)).2.2.2.2.1 (by decide)),
   (((parse_report_family_mask_table
        [0x11, 0xff, 0x0a, 0x00, 0x03, 0, 0, 0, 0, 0,
         0, 0, 0, 0, 0, 0, 0, 0, 0, 0]
        (by decide) (by decide) (by decide)).1 (by decide)).2.2.2.2.2.2 (by decide))⟩

/-- C7: `parse_report` is a total function into `Option Event` and
returns `none` — never an error — on every malformed input: any slice
shorter than 5 bytes, any slice without the `0x11 0xff` vendor prefix,
any report with an unknown family byte, and any report whose mask byte
is not one of the recognized single-bit values. -/
theorem parse_report_never_errors (data : List Nat) :
    (data.length < 5 → parse_report data = none) ∧
    (byte data 0 ≠ 0x11 → parse_report data = none) ∧
    (byte data 1 ≠ 0xff → parse_report data = none) ∧
    (byte data 2 ∉ ([0x0a, 0x0b, 0x0c] : List Nat) →
      parse_report data = none) ∧
    (byte data 4 ∉ ([0x00, 0x01, 0x02, 0x04, 0x08, 0x10] : List Nat) →
      parse_report data = none) := by
  refine ⟨fun h => ?_, fun h => ?_, fun h => ?_, fun h => ?_, fun h => ?_⟩
  · simp [parse_report, h]
  · simp [parse_report, h]
  · simp [parse_report, h]
  · simp only [List.mem_cons, List.not_mem_nil, or_false] at h
    push_neg at h
    obtain ⟨ha, hb, hc⟩ := h
    simp [parse_report, ha, hb, hc]
  · simp only [List.mem_cons, List.not_mem_nil, or_false] at h
    push_neg at h
    obtain ⟨h0, h1, h2, h4, h8, h16⟩ := h
    simp only [parse_report, h0, h1, h2, h4, h8, h16]
    split_ifs <;> simp_all

/-- Witness for C7: a 1-byte slice, a wrong-prefix slice, an
unknown-family report, and a multi-bit-mask report all decode to
`none`. -/
theorem parse_report_never_errors_witness :
    parse_report [0x12] = none ∧
    parse_report [0x10, 0xff, 0x0a, 0x00, 0x01, 0, 0, 0, 0, 0,
        0, 0, 0, 0, 0, 0, 0, 0, 0, 0] = none ∧
    parse_report [0x11, 0xff, 0x0d, 0x00, 0x01, 0, 0, 0, 0, 0,
        0, 0, 0, 0, 0, 0, 0, 0, 0, 0] = none ∧
    parse_report [0x11, 0xff, 0x0b, 0x00, 0x07, 0, 0, 0, 0, 0,
        0, 0, 0, 0, 0, 0, 0, 0, 0, 0] = none :=
  ⟨(parse_report_never_errors [0x12]).1 (by decide),
   (parse_report_never_errors [0x10, 0xff, 0x0a, 0x00, 0x01, 0, 0, 0, 0, 0,
      0, 0, 0, 0, 0, 0, 0, 0, 0, 0]).2.1 (by decide),
   (parse_report_never_errors [0x11, 0xff, 0x0d, 0x00, 0x01, 0, 0, 0, 0, 0,
      0, 0, 0, 0, 0, 0, 0, 0, 0, 0]).2.2.2.1 (by decide),
   (parse_report_never_errors [0x11, 0xff, 0x0b, 0x00, 0x07, 0, 0, 0, 0, 0,
      0, 0, 0, 0, 0, 0, 0, 0, 0, 0]).2.2.2.2 (by decide)⟩

/-- C6: in every iteration of the LED worker loop — any command
(`SetMrLed`, `StartMrFlashing`, `StopMrFlashing`, `QuickFlashMr`,
`Shutdown`, and all the G-key/profile/color commands) as well as a
flash-timer timeout — every write of a record-indicator (MR LED) report
is immediately preceded by a store into the shared `SelfWriteMarker`;
no MR LED write occurs without such a store. -/
theorem led_worker_store_before_mr_write (st : LedWorkerState)
    (input : LedInput) :
    storeBeforeMrWrite (led_worker_step st input).2 = true := by
  cases input with
  | cmd c =>
      cases c with
      | SetMrLed lit => cases lit <;> rfl
      | SetProfileLed profile => rfl
      | SetAllGKeysLed r g b => rfl
      | SetGKeysRecording selected_gkey => rfl
      | StartMrFlashing => rfl
      | StopMrFlashing => rfl
      | QuickFlashMr count => exact aux_quick_flash_ops count false
      | TurnOffGKeys => rfl
      | SetFullKeyboardColor r g b =>
          show storeBeforeMrWriteAux false
            ((direct_mode_init_commands.map LedOp.write) ++
             (((full_keyboard_color_commands r g b).map LedOp.write) ++
              [LedOp.write led_commit_command])) = true
          refine aux_append_passthrough _ _ _ (by decide) fun q => ?_
          refine aux_append_passthrough _ _ _ ?_ fun q2 => rfl
          intro op hop
          simp only [full_keyboard_color_commands, List.map_map,
            List.mem_map, Function.comp] at hop
          obtain ⟨key, -, rfl⟩ := hop
          exact ⟨rfl, rfl⟩
      | RestoreGKeysColor color => rcases color with - | ⟨r, g, b⟩ <;> rfl
      | Shutdown => rfl
  | timeout elapsed_ge_interval =>
      rcases st with ⟨f, fo⟩
      cases f <;> cases elapsed_ge_interval <;> rfl

end GkeysRs
